import Mathlib

/-
Verification of the behaviour of tools/list-settings.py: a command-line tool
that connects to a SnipeIT server, lists resource collections as tables and
optionally exports the raw responses to a JSON file.  The Python code is
shallowly embedded below: JSON values become the inductive type Json, the
Python dict method get becomes Json.get (an AttributeError on a non-dict
receiver becomes an Except.error), Python truthiness becomes Json.truthy,
and the control flow of main becomes the function main_run producing an
exit code together with a trace of observable events.
-/

namespace SnipeIT

/-- JSON values as delivered by response.json and consumed by the listers. -/
inductive Json where
  | null : Json
  | bool : Bool → Json
  | num : Int → Json
  | str : String → Json
  | arr : List Json → Json
  | obj : List (String × Json) → Json

/-- Python truthiness of a JSON value: None, False, 0, empty string, empty
list and empty dict are falsy, everything else is truthy. -/
def Json.truthy : Json → Bool
  | .null => false
  | .bool b => b
  | .num n => n != 0
  | .str s => s != ""
  | .arr xs => !xs.isEmpty
  | .obj fs => !fs.isEmpty

/-- The Python expression receiver.get(key, default): on a dict it returns the
value stored under the key when the key is present (even when that value is
None) and the default otherwise; on any non-dict receiver, including None,
looking up the attribute get raises an AttributeError. -/
def Json.get (j : Json) (key : String) (default : Json) : Except String Json :=
  match j with
  | .obj fs => .ok ((fs.lookup key).getD default)
  | _ => .error "AttributeError"

/-- Except.ok composed with bind steps into the continuation. -/
theorem okBindStep {α β : Type} (a : α) (f : α → Except String β) :
    (Except.ok a >>= f) = f a := rfl

/-- pure on Except is Except.ok. -/
theorem pureOkStep {α : Type} (a : α) :
    (pure a : Except String α) = .ok a := rfl

/-- Embeds the Category cell of list_models, line 153:
model.get with key category and an empty dict default, then get with key name
and an empty string default. -/
def modelCategoryName (model : Json) : Except String Json := do
  let c ← model.get "category" (.obj [])
  c.get "name" (.str "")

/-- Embeds the Manufacturer cell of list_models, line 154. -/
def modelManufacturerName (model : Json) : Except String Json := do
  let m ← model.get "manufacturer" (.obj [])
  m.get "name" (.str "")

/-- Embeds lines 278-279 of list_locations: parent is looked up with an empty
dict default and the name is extracted only when parent is truthy, otherwise
the cell is the empty string. -/
def locationParentName (location : Json) : Except String Json := do
  let p ← location.get "parent" (.obj [])
  if p.truthy then p.get "name" (.str "") else pure (.str "")

/-- Embeds lines 317-318 of list_departments: the Company cell with the same
truthiness guard as the locations parent. -/
def departmentCompanyName (dept : Json) : Except String Json := do
  let c ← dept.get "company" (.obj [])
  if c.truthy then c.get "name" (.str "") else pure (.str "")

/-- Embeds lines 319-320 of list_departments: the Manager cell. -/
def departmentManagerName (dept : Json) : Except String Json := do
  let m ← dept.get "manager" (.obj [])
  if m.truthy then m.get "name" (.str "") else pure (.str "")

/-- Embeds line 226 of list_status_labels: the Pivot cell
status.get with key pivot and an empty dict default, then get with key
assets_count and the default 0 (the Python wraps the result in str). -/
def statusLabelPivotCount (status : Json) : Except String Json := do
  let p ← status.get "pivot" (.obj [])
  p.get "assets_count" (.num 0)

/-- Claim C1, counterexample: a model record whose category key is present
with value null makes the Category cell raise an AttributeError instead of
rendering the empty string, because the empty-dict default of get is not used
when the key is present with value None. -/
theorem c1_nested_null_counterexample :
    modelCategoryName (.obj [("category", Json.null)]) =
      .error "AttributeError" := rfl

/-- Claim C1, amended: a null parent, company or manager renders its derived
name column as the empty string and never raises; for category and
manufacturer on a model only an absent key defaults to the empty string,
while a key present with value null raises an AttributeError. -/
theorem c1_nested_null_amended (r a : List (String × Json))
    (hp : r.lookup "parent" = some .null)
    (hco : r.lookup "company" = some .null)
    (hma : r.lookup "manager" = some .null)
    (hca : r.lookup "category" = some .null)
    (hmf : r.lookup "manufacturer" = some .null)
    (ha1 : a.lookup "category" = none)
    (ha2 : a.lookup "manufacturer" = none) :
    locationParentName (.obj r) = .ok (.str "") ∧
    departmentCompanyName (.obj r) = .ok (.str "") ∧
    departmentManagerName (.obj r) = .ok (.str "") ∧
    modelCategoryName (.obj r) = .error "AttributeError" ∧
    modelManufacturerName (.obj r) = .error "AttributeError" ∧
    modelCategoryName (.obj a) = .ok (.str "") ∧
    modelManufacturerName (.obj a) = .ok (.str "") := by
  refine ⟨?_, ?_, ?_, ?_, ?_, ?_, ?_⟩ <;>
    simp [locationParentName, departmentCompanyName, departmentManagerName,
      modelCategoryName, modelManufacturerName, Json.get, Json.truthy,
      hp, hco, hma, hca, hmf, ha1, ha2, okBindStep, pureOkStep]

/-- Claim C1 witness: the amended statement evaluated on concrete records. -/
theorem c1_nested_null_amended_witness :
    locationParentName
      (.obj [("parent", Json.null), ("company", Json.null),
             ("manager", Json.null), ("category", Json.null),
             ("manufacturer", Json.null)]) = .ok (.str "") ∧
    departmentCompanyName
      (.obj [("parent", Json.null), ("company", Json.null),
             ("manager", Json.null), ("category", Json.null),
             ("manufacturer", Json.null)]) = .ok (.str "") ∧
    modelCategoryName (.obj [("name", Json.str "x")]) = .ok (.str "") := by
  have h := c1_nested_null_amended
    [("parent", Json.null), ("company", Json.null), ("manager", Json.null),
     ("category", Json.null), ("manufacturer", Json.null)]
    [("name", Json.str "x")] rfl rfl rfl rfl rfl rfl rfl
  exact ⟨h.1, h.2.1, h.2.2.2.2.2.1⟩

/-- Claim C9, counterexample: a status-label record whose pivot key is present
with value null makes the Pivot cell raise an AttributeError. -/
theorem c9_pivot_null_counterexample :
    statusLabelPivotCount (.obj [("pivot", Json.null)]) =
      .error "AttributeError" := rfl

/-- Claim C9, amended: when the pivot key is absent the asset count defaults
to 0 without error, but a record whose pivot key is present with value null
raises an AttributeError. -/
theorem c9_pivot_amended (r a : List (String × Json))
    (hr : r.lookup "pivot" = some .null)
    (ha : a.lookup "pivot" = none) :
    statusLabelPivotCount (.obj a) = .ok (.num 0) ∧
    statusLabelPivotCount (.obj r) = .error "AttributeError" := by
  constructor <;> simp [statusLabelPivotCount, Json.get, hr, ha, okBindStep]

/-- Claim C9 witness: the amended statement evaluated on concrete records. -/
theorem c9_pivot_amended_witness :
    statusLabelPivotCount (.obj [("name", Json.str "Ready")]) =
      .ok (.num 0) ∧
    statusLabelPivotCount (.obj [("pivot", Json.null)]) =
      .error "AttributeError" :=
  c9_pivot_amended [("pivot", Json.null)] [("name", Json.str "Ready")] rfl rfl

/-- Embeds the shared row-extraction guard of every lister, shown for
list_asset_types (lines 112-123): when the fetched data is None or falsy
(the Python test if not data) the could-not-retrieve notice is printed and
no table is produced, encoded as .ok none; otherwise the rows are
data.get with key rows and an empty list default, and the table path .ok
(some xs) iterates them.  Iterating a value that is not a JSON array is
modelled as a TypeError. -/
def listingRows (data : Option Json) : Except String (Option (List Json)) :=
  match data with
  | none => .ok none
  | some d =>
    if d.truthy then
      match d.get "rows" (.arr []) with
      | .ok (.arr xs) => .ok (some xs)
      | .ok _ => .error "TypeError"
      | .error e => .error e
    else .ok none

/-- Claim C3, counterexample: a 200 response whose body is the empty JSON
object (so the rows field is absent) takes the could-not-retrieve failure
path, because the empty dict is falsy in Python, while a body with rows
present and empty renders an empty table; the two behave differently. -/
theorem c3_rows_absent_counterexample :
    listingRows (some (.obj [])) = .ok none ∧
    listingRows (some (.obj [("rows", Json.arr [])])) = .ok (some []) :=
  ⟨rfl, rfl⟩

/-- Claim C3, amended: a 200 response whose body is a non-empty JSON object
with the rows field absent behaves exactly as if rows were an empty
sequence (no exception, empty table); an empty object body instead takes
the could-not-retrieve failure path. -/
theorem c3_rows_absent_amended (fs : List (String × Json))
    (hne : fs ≠ []) (hrows : fs.lookup "rows" = none) :
    listingRows (some (.obj fs)) = .ok (some []) ∧
    listingRows (some (.obj fs)) =
      listingRows (some (.obj (("rows", Json.arr []) :: fs))) ∧
    listingRows (some (.obj [])) = .ok none := by
  refine ⟨?_, ?_, rfl⟩ <;>
    cases fs with
    | nil => exact absurd rfl hne
    | cons p t => simp [listingRows, Json.truthy, Json.get, hrows]

/-- Claim C3 witness: the amended statement evaluated on the concrete body
holding only a total field. -/
theorem c3_rows_absent_amended_witness :
    listingRows (some (.obj [("total", Json.num 0)])) = .ok (some []) := by
  exact (c3_rows_absent_amended [("total", Json.num 0)] (by simp) rfl).1

/-- Embeds lines 282-285 of list_locations: the address value from
location.get is replaced by the empty string when it is None, then truncated
to its first 30 characters plus an ellipsis marker when longer than 30
characters; calling len on a non-string value raises a TypeError. -/
def locationAddressDisplay (v : Json) : Except String String :=
  match v with
  | .null => .ok ""
  | .str address =>
    .ok (if address.length > 30 then address.take 30 ++ "..." else address)
  | _ => .error "TypeError"

/-- Embeds lines 383-386 of list_manufacturers: the url value with the same
None guard and 30-character truncation. -/
def manufacturerUrlDisplay (v : Json) : Except String String :=
  match v with
  | .null => .ok ""
  | .str url =>
    .ok (if url.length > 30 then url.take 30 ++ "..." else url)
  | _ => .error "TypeError"

/-- Claim C7: a 31-character address or url is rendered as its first 30
characters followed by the ellipsis marker, a 30-character value is rendered
unchanged, and a null value is treated as the empty string, never causing a
type error. -/
theorem c7_truncation (s31 s30 : String)
    (h31 : s31.length = 31) (h30 : s30.length = 30) :
    locationAddressDisplay (.str s31) = .ok (s31.take 30 ++ "...") ∧
    locationAddressDisplay (.str s30) = .ok s30 ∧
    locationAddressDisplay .null = .ok "" ∧
    manufacturerUrlDisplay (.str s31) = .ok (s31.take 30 ++ "...") ∧
    manufacturerUrlDisplay (.str s30) = .ok s30 ∧
    manufacturerUrlDisplay .null = .ok "" := by
  refine ⟨?_, ?_, rfl, ?_, ?_, rfl⟩ <;>
    simp [locationAddressDisplay, manufacturerUrlDisplay, h31, h30]

/-- Claim C7 witness: the truncation behaviour on concrete strings of length
31 and 30. -/
theorem c7_truncation_witness :
    locationAddressDisplay (.str "abcdefghijklmnopqrstuvwxyz01234") =
      .ok ("abcdefghijklmnopqrstuvwxyz01234".take 30 ++ "...") ∧
    manufacturerUrlDisplay (.str "abcdefghijklmnopqrstuvwxyz0123") =
      .ok "abcdefghijklmnopqrstuvwxyz0123" := by
  have h := c7_truncation "abcdefghijklmnopqrstuvwxyz01234"
    "abcdefghijklmnopqrstuvwxyz0123" rfl rfl
  exact ⟨h.1, h.2.2.2.2.1⟩

/-- Embeds export_config (lines 434-457): the config dict assembled from the
server url and one get_api_data call per resource kind, in source order and
written out by json.dump; a Python None value serializes as JSON null,
modelled by Option.getD Json.null.  The fetch argument gives the
get_api_data result for each endpoint. -/
def export_config (fetch : String → Option Json) (server_url : String) :
    List (String × Json) :=
  [("server_url", .str server_url),
   ("timestamp", .null),
   ("categories", (fetch "categories").getD .null),
   ("models", (fetch "models").getD .null),
   ("fields", (fetch "fields").getD .null),
   ("statuslabels", (fetch "statuslabels").getD .null),
   ("companies", (fetch "companies").getD .null),
   ("locations", (fetch "locations").getD .null),
   ("departments", (fetch "departments").getD .null),
   ("suppliers", (fetch "suppliers").getD .null),
   ("manufacturers", (fetch "manufacturers").getD .null)]

/-- Claim C2, counterexample: the exported document carries an eleventh key
timestamp (always null), which is outside the ten keys the claim allows. -/
theorem c2_export_keys_counterexample :
    (export_config (fun _ => none) "https://snipe.example.com").map
        Prod.fst =
      ["server_url", "timestamp", "categories", "models", "fields",
       "statuslabels", "companies", "locations", "departments",
       "suppliers", "manufacturers"] ∧
    "timestamp" ∉
      ["server_url", "categories", "models", "fields", "statuslabels",
       "companies", "locations", "departments", "suppliers",
       "manufacturers"] :=
  ⟨rfl, by decide⟩

/-- Claim C2, amended: for every export run the document has exactly the keys
server_url (the server url string), timestamp (always null), and the nine
resource-kind keys, each resource key holding the raw fetched response when
the fetch succeeded and null when it failed, and no other keys. -/
theorem c2_export_keys_amended (fetch : String → Option Json) (s : String) :
    (export_config fetch s).map Prod.fst =
      ["server_url", "timestamp", "categories", "models", "fields",
       "statuslabels", "companies", "locations", "departments",
       "suppliers", "manufacturers"] ∧
    (export_config fetch s).lookup "server_url" = some (.str s) ∧
    (export_config fetch s).lookup "timestamp" = some .null ∧
    (export_config fetch s).lookup "categories" =
      some ((fetch "categories").getD .null) ∧
    (export_config fetch s).lookup "models" =
      some ((fetch "models").getD .null) ∧
    (export_config fetch s).lookup "fields" =
      some ((fetch "fields").getD .null) ∧
    (export_config fetch s).lookup "statuslabels" =
      some ((fetch "statuslabels").getD .null) ∧
    (export_config fetch s).lookup "companies" =
      some ((fetch "companies").getD .null) ∧
    (export_config fetch s).lookup "locations" =
      some ((fetch "locations").getD .null) ∧
    (export_config fetch s).lookup "departments" =
      some ((fetch "departments").getD .null) ∧
    (export_config fetch s).lookup "suppliers" =
      some ((fetch "suppliers").getD .null) ∧
    (export_config fetch s).lookup "manufacturers" =
      some ((fetch "manufacturers").getD .null) :=
  ⟨rfl, rfl, rfl, rfl, rfl, rfl, rfl, rfl, rfl, rfl, rfl, rfl⟩

/-- Claim C2 witness: the amended statement at a concrete all-failing fetch. -/
theorem c2_export_keys_amended_witness :
    (export_config (fun _ => none) "https://h").lookup "manufacturers" =
      some Json.null :=
  (c2_export_keys_amended (fun _ => none) "https://h").2.2.2.2.2.2.2.2.2.2.2

/-- Embeds line 149 of list_models: the slice of the fetched rows that is
rendered, data.get rows sliced to the first 20. -/
def modelsRendered (rows : List Json) : List Json := rows.take 20

/-- Embeds lines 158-159 of list_models: the overflow notice printed when
the row count exceeds 20, stating the count beyond 20. -/
def modelsOverflowNotice (rows : List Json) : Option Nat :=
  if rows.length > 20 then some (rows.length - 20) else none

/-- Embeds line 247 of list_companies: the first 15 rows are rendered. -/
def companiesRendered (rows : List Json) : List Json := rows.take 15

/-- Embeds lines 256-257 of list_companies: the overflow notice beyond 15. -/
def companiesOverflowNotice (rows : List Json) : Option Nat :=
  if rows.length > 15 then some (rows.length - 15) else none

/-- Embeds line 277 of list_locations: the first 15 rows are rendered. -/
def locationsRendered (rows : List Json) : List Json := rows.take 15

/-- Embeds lines 295-296 of list_locations: the overflow notice beyond 15. -/
def locationsOverflowNotice (rows : List Json) : Option Nat :=
  if rows.length > 15 then some (rows.length - 15) else none

/-- Embeds line 316 of list_departments: the first 15 rows are rendered. -/
def departmentsRendered (rows : List Json) : List Json := rows.take 15

/-- Embeds lines 330-331 of list_departments: the overflow notice beyond 15. -/
def departmentsOverflowNotice (rows : List Json) : Option Nat :=
  if rows.length > 15 then some (rows.length - 15) else none

/-- Embeds line 351 of list_suppliers: the first 15 rows are rendered. -/
def suppliersRendered (rows : List Json) : List Json := rows.take 15

/-- Embeds lines 360-361 of list_suppliers: the overflow notice beyond 15. -/
def suppliersOverflowNotice (rows : List Json) : Option Nat :=
  if rows.length > 15 then some (rows.length - 15) else none

/-- Embeds line 381 of list_manufacturers: the first 15 rows are rendered. -/
def manufacturersRendered (rows : List Json) : List Json := rows.take 15

/-- Embeds lines 396-397 of list_manufacturers: the overflow notice beyond
15. -/
def manufacturersOverflowNotice (rows : List Json) : Option Nat :=
  if rows.length > 15 then some (rows.length - 15) else none

/-- Embeds line 123 of list_asset_types: every fetched row is rendered, with
no cap and no overflow notice. -/
def categoriesRendered (rows : List Json) : List Json := rows

/-- Embeds line 217 of list_status_labels: every fetched row is rendered,
with no cap and no overflow notice. -/
def statusLabelsRendered (rows : List Json) : List Json := rows

/-- A capped rendering keeps min R C rows. -/
theorem takeLengthMin (c : Nat) (rows : List Json) :
    (rows.take c).length = min rows.length c := by
  simp [Nat.min_comm]

/-- The overflow notice of a cap c fires exactly above c and states the
excess. -/
theorem noticeChar (c n : Nat) (rows : List Json) :
    (if rows.length > c then some (rows.length - c) else none) = some n ↔
      rows.length > c ∧ n = rows.length - c := by
  split <;> simp_all
  omega

/-- Claim C4: with cap 20 for models and cap 15 for companies, locations,
departments, suppliers and manufacturers, exactly min R C of the R fetched
rows are rendered, the overflow notice appears exactly when R exceeds C and
states R minus C, and categories and status labels render all rows. -/
theorem c4_display_caps (rows : List Json) :
    ((modelsRendered rows).length = min rows.length 20 ∧
      ∀ n, modelsOverflowNotice rows = some n ↔
        rows.length > 20 ∧ n = rows.length - 20) ∧
    ((companiesRendered rows).length = min rows.length 15 ∧
      ∀ n, companiesOverflowNotice rows = some n ↔
        rows.length > 15 ∧ n = rows.length - 15) ∧
    ((locationsRendered rows).length = min rows.length 15 ∧
      ∀ n, locationsOverflowNotice rows = some n ↔
        rows.length > 15 ∧ n = rows.length - 15) ∧
    ((departmentsRendered rows).length = min rows.length 15 ∧
      ∀ n, departmentsOverflowNotice rows = some n ↔
        rows.length > 15 ∧ n = rows.length - 15) ∧
    ((suppliersRendered rows).length = min rows.length 15 ∧
      ∀ n, suppliersOverflowNotice rows = some n ↔
        rows.length > 15 ∧ n = rows.length - 15) ∧
    ((manufacturersRendered rows).length = min rows.length 15 ∧
      ∀ n, manufacturersOverflowNotice rows = some n ↔
        rows.length > 15 ∧ n = rows.length - 15) ∧
    categoriesRendered rows = rows ∧
    statusLabelsRendered rows = rows := by
  refine ⟨⟨takeLengthMin 20 rows, fun n => ?_⟩,
    ⟨takeLengthMin 15 rows, fun n => ?_⟩,
    ⟨takeLengthMin 15 rows, fun n => ?_⟩,
    ⟨takeLengthMin 15 rows, fun n => ?_⟩,
    ⟨takeLengthMin 15 rows, fun n => ?_⟩,
    ⟨takeLengthMin 15 rows, fun n => ?_⟩, rfl, rfl⟩
  all_goals exact noticeChar _ n rows

/-- Claim C4 witness: 21 fetched rows render 20 models and 15 companies, with
overflow notices stating 1 and 6. -/
theorem c4_display_caps_witness :
    (modelsRendered (List.replicate 21 Json.null)).length = 20 ∧
    modelsOverflowNotice (List.replicate 21 Json.null) = some 1 ∧
    companiesOverflowNotice (List.replicate 21 Json.null) = some 6 := by
  have h := c4_display_caps (List.replicate 21 Json.null)
  refine ⟨by simpa using h.1.1, ?_, ?_⟩
  · exact (h.1.2 1).mpr (by simp)
  · exact (h.2.1.2 6).mpr (by simp)

/-- The outcome of one HTTP GET as seen by the Python client: either a
response with a status code and a parsed JSON body, or a network exception
(requests.exceptions.RequestException) carrying a message. -/
inductive HttpOutcome where
  | response : Nat → Json → HttpOutcome
  | networkError : String → HttpOutcome

/-- What a call to get_api_data produces: the returned value (None or the
parsed body) together with the console messages printed on the way. -/
structure ApiResult where
  data : Option Json
  log : List String

/-- Embeds SnipeITClient.get_api_data (lines 50-72): status 200 returns the
parsed body, 404, 401, 403 and every other status return None after printing
a message, and a network exception is caught and also returns None after
printing a message.  The function is total: no path re-raises to the
caller. -/
def get_api_data (endpoint : String) (out : HttpOutcome) : ApiResult :=
  match out with
  | .response status body =>
    if status = 200 then ⟨some body, []⟩
    else if status = 404 then
      ⟨none, ["Endpoint " ++ endpoint ++
        " not found (404) - may not be available in this SnipeIT version"]⟩
    else if status = 401 then
      ⟨none, ["Authentication error (401) for " ++ endpoint ++
        " - check your API token"]⟩
    else if status = 403 then
      ⟨none, ["Access denied (403) for " ++ endpoint ++
        " - check your token permissions"]⟩
    else ⟨none, ["API error " ++ endpoint ++ ": " ++ toString status]⟩
  | .networkError e => ⟨none, ["Request error " ++ endpoint ++ ": " ++ e]⟩

/-- Claim C5: get_api_data returns the parsed body exactly on status 200; on
every other status and on any network exception it returns None together
with a logged message, and every outcome is mapped to a result (no path
raises to the caller). -/
theorem c5_get_api_data (endpoint : String) (out : HttpOutcome) :
    (∀ body, out = HttpOutcome.response 200 body →
      get_api_data endpoint out = ⟨some body, []⟩) ∧
    ((∀ body, out ≠ HttpOutcome.response 200 body) →
      (get_api_data endpoint out).data = none ∧
      (get_api_data endpoint out).log ≠ []) := by
  constructor
  · intro body h
    subst h
    simp [get_api_data]
  · intro h
    cases out with
    | networkError e => simp [get_api_data]
    | response status body =>
      have hs : status ≠ 200 := by
        intro h200
        exact h body (by rw [h200])
      simp only [get_api_data, if_neg hs]
      split <;> try exact ⟨rfl, by simp⟩
      split <;> try exact ⟨rfl, by simp⟩
      split <;> exact ⟨rfl, by simp⟩

/-- Claim C5 witness: a 200 response returns its body with nothing logged,
while a 500 response returns None with a message logged. -/
theorem c5_get_api_data_witness :
    get_api_data "models" (.response 200 (Json.obj [])) =
      ⟨some (Json.obj []), []⟩ ∧
    (get_api_data "models" (.response 500 Json.null)).data = none ∧
    (get_api_data "models" (.response 500 Json.null)).log ≠ [] := by
  refine ⟨(c5_get_api_data "models" _).1 (Json.obj []) rfl, ?_⟩
  apply (c5_get_api_data "models" (.response 500 Json.null)).2
  intro body hb
  injection hb with h1 h2
  exact absurd h1 (by decide)

/-- The parsed command-line arguments of main (lines 472-560).  The Python
attribute args.export is named doExport here because export is a reserved
word in Lean; export_file keeps its source name. -/
structure Args where
  server : String
  token : String
  all : Bool
  categories : Bool
  models : Bool
  custom_fields : Bool
  status_labels : Bool
  companies : Bool
  locations : Bool
  departments : Bool
  suppliers : Bool
  manufacturers : Bool
  api_endpoints : Bool
  doExport : Bool
  export_file : String

/-- Embeds line 565: args.server.startswith against the pair of allowed
schemes, as a character-wise prefix test. -/
def validScheme (server : String) : Bool :=
  List.isPrefixOf "http://".data server.data ||
  List.isPrefixOf "https://".data server.data

/-- Embeds lines 581-585: show_all is true when the all flag is set or none
of the ten selection flags is set (args.export is not among them). -/
def show_all (a : Args) : Bool :=
  a.all || !(a.categories || a.models || a.custom_fields ||
    a.status_labels || a.companies || a.locations || a.departments ||
    a.suppliers || a.manufacturers || a.api_endpoints)

/-- An observable step of a run: the connectivity probe (the GET issued by
test_connection), a resource GET issued by get_api_data, the
could-not-retrieve notice of a lister, the table a lister renders, the
static endpoint table, and the export file write. -/
inductive Event where
  | probe : Event
  | fetch : String → Event
  | failureNotice : String → Event
  | table : String → Event
  | showEndpoints : Event
  | exportWrite : String → Event

/-- One lister in the dispatch of main: when selected it fetches its
endpoint and then, mirroring the test if not data, prints the
could-not-retrieve notice when the result is None or falsy and renders the
table otherwise.  The env argument gives the HTTP outcome of each
endpoint. -/
def listingTrace (selected : Bool) (endpoint : String)
    (env : String → HttpOutcome) : List Event :=
  if selected then
    Event.fetch endpoint ::
      (match (get_api_data endpoint (env endpoint)).data with
       | some d =>
         if d.truthy then [Event.table endpoint]
         else [Event.failureNotice endpoint]
       | none => [Event.failureNotice endpoint])
  else []

/-- Embeds the dispatch of main, lines 588-616, in source order; the
api-endpoints listing is static and fetches nothing. -/
def listingEvents (a : Args) (env : String → HttpOutcome) : List Event :=
  listingTrace (show_all a || a.categories) "categories" env ++
  listingTrace (show_all a || a.models) "models" env ++
  listingTrace (show_all a || a.custom_fields) "fields" env ++
  listingTrace (show_all a || a.status_labels) "statuslabels" env ++
  listingTrace (show_all a || a.companies) "companies" env ++
  listingTrace (show_all a || a.locations) "locations" env ++
  listingTrace (show_all a || a.departments) "departments" env ++
  listingTrace (show_all a || a.suppliers) "suppliers" env ++
  listingTrace (show_all a || a.manufacturers) "manufacturers" env ++
  (if show_all a || a.api_endpoints then [Event.showEndpoints] else [])

/-- Embeds export_config as a trace (lines 434-457): nine fetches in source
order followed by the file write; a write failure is reported and changes
nothing else, so the trace is the same either way. -/
def exportEvents (file : String) : List Event :=
  [Event.fetch "categories", Event.fetch "models", Event.fetch "fields",
   Event.fetch "statuslabels", Event.fetch "companies",
   Event.fetch "locations", Event.fetch "departments",
   Event.fetch "suppliers", Event.fetch "manufacturers",
   Event.exportWrite file]

/-- The outcome of one run of main: the process exit code and the trace of
observable events. -/
structure RunResult where
  exitCode : Nat
  events : List Event

/-- Embeds main (lines 562-623): URL scheme validation before any network
activity, then the connectivity probe as a hard gate (sys.exit(1) when it
fails), then the listing dispatch and the optional export.  connOk is the
outcome of the probe.  No lister result feeds back into control flow, so
the exit code after a successful probe is 0 regardless of env; the
rendering inside a table is modelled separately by the row-level
functions. -/
def main_run (a : Args) (connOk : Bool) (env : String → HttpOutcome) :
    RunResult :=
  if !(validScheme a.server) then ⟨1, []⟩
  else if !connOk then ⟨1, [Event.probe]⟩
  else
    ⟨0, Event.probe ::
      (listingEvents a env ++
        if a.doExport then exportEvents a.export_file else [])⟩

/-- Claim C6: an invalid URL scheme exits with code 1 before any network
activity; a failed connectivity probe exits with code 1 with no resource
fetch attempted; and a run that passes the probe exits with code 0 for
every env, in particular when every resource fetch fails. -/
theorem c6_exit_codes (a : Args) (connOk : Bool)
    (env : String → HttpOutcome) :
    (validScheme a.server = false →
      main_run a connOk env = ⟨1, []⟩) ∧
    (validScheme a.server = true → connOk = false →
      (main_run a connOk env).exitCode = 1 ∧
      ∀ ep, Event.fetch ep ∉ (main_run a connOk env).events) ∧
    (validScheme a.server = true → connOk = true →
      (main_run a connOk env).exitCode = 0) := by
  refine ⟨fun h => ?_, fun h hc => ⟨?_, fun ep => ?_⟩, fun h hc => ?_⟩
  · simp [main_run, h]
  · simp [main_run, h, hc]
  · simp [main_run, h, hc]
  · simp [main_run, h, hc]

/-- Claim C6 witness: the three exit paths on concrete arguments, with an
env on which every fetch fails. -/
theorem c6_exit_codes_witness :
    main_run
      ⟨"ftp://host", "t", false, false, false, false, false, false, false,
        false, false, false, false, false, "snipeit_config.json"⟩
      true (fun _ => HttpOutcome.networkError "refused") = ⟨1, []⟩ ∧
    (main_run
      ⟨"https://h", "t", false, false, false, false, false, false, false,
        false, false, false, false, false, "snipeit_config.json"⟩
      false (fun _ => HttpOutcome.networkError "refused")).exitCode = 1 ∧
    (main_run
      ⟨"https://h", "t", false, false, false, false, false, false, false,
        false, false, false, false, false, "snipeit_config.json"⟩
      true (fun _ => HttpOutcome.networkError "refused")).exitCode = 0 := by
  refine ⟨(c6_exit_codes
      ⟨"ftp://host", "t", false, false, false, false, false, false, false,
        false, false, false, false, false, "snipeit_config.json"⟩
      true (fun _ => HttpOutcome.networkError "refused")).1 rfl,
    ((c6_exit_codes
      ⟨"https://h", "t", false, false, false, false, false, false, false,
        false, false, false, false, false, "snipeit_config.json"⟩
      false (fun _ => HttpOutcome.networkError "refused")).2.1 rfl rfl).1,
    (c6_exit_codes
      ⟨"https://h", "t", false, false, false, false, false, false, false,
        false, false, false, false, false, "snipeit_config.json"⟩
      true (fun _ => HttpOutcome.networkError "refused")).2.2 rfl rfl⟩

/-- Claim C8: a run with no selection flags performs exactly the same
operations, in the same order, as a run with the all flag and the same
server, token and export arguments. -/
theorem c8_no_flags_equals_all (a b : Args) (connOk : Bool)
    (env : String → HttpOutcome)
    (ha0 : a.all = false) (ha1 : a.categories = false)
    (ha2 : a.models = false) (ha3 : a.custom_fields = false)
    (ha4 : a.status_labels = false) (ha5 : a.companies = false)
    (ha6 : a.locations = false) (ha7 : a.departments = false)
    (ha8 : a.suppliers = false) (ha9 : a.manufacturers = false)
    (ha10 : a.api_endpoints = false)
    (hb0 : b.server = a.server) (_hb1 : b.token = a.token)
    (hb2 : b.all = true) (hb3 : b.categories = false)
    (hb4 : b.models = false) (hb5 : b.custom_fields = false)
    (hb6 : b.status_labels = false) (hb7 : b.companies = false)
    (hb8 : b.locations = false) (hb9 : b.departments = false)
    (hb10 : b.suppliers = false) (hb11 : b.manufacturers = false)
    (hb12 : b.api_endpoints = false)
    (hb13 : b.doExport = a.doExport) (hb14 : b.export_file = a.export_file) :
    main_run a connOk env = main_run b connOk env := by
  simp [main_run, listingEvents, show_all, ha0, ha1, ha2, ha3, ha4, ha5,
    ha6, ha7, ha8, ha9, ha10, hb0, hb2, hb3, hb4, hb5, hb6, hb7, hb8,
    hb9, hb10, hb11, hb12, hb13, hb14]

/-- Claim C8 witness: concrete runs with no selection flags and with the all
flag produce the same result. -/
theorem c8_no_flags_equals_all_witness :
    main_run
      ⟨"https://h", "t", false, false, false, false, false, false, false,
        false, false, false, false, false, "snipeit_config.json"⟩
      true (fun _ => HttpOutcome.networkError "refused") =
    main_run
      ⟨"https://h", "t", true, false, false, false, false, false, false,
        false, false, false, false, false, "snipeit_config.json"⟩
      true (fun _ => HttpOutcome.networkError "refused") :=
  c8_no_flags_equals_all _ _ _ _ rfl rfl rfl rfl rfl rfl rfl rfl rfl rfl
    rfl rfl rfl rfl rfl rfl rfl rfl rfl rfl rfl rfl rfl rfl rfl rfl

/-- Claim C10: the export flag is not a selection flag: a run given only
server, token and export renders exactly the events of an all-flag run
without export, followed by the export trace, and exits with code 0. -/
theorem c10_export_not_selection (a b : Args)
    (env : String → HttpOutcome)
    (hurl : validScheme a.server = true)
    (ha0 : a.all = false) (ha1 : a.categories = false)
    (ha2 : a.models = false) (ha3 : a.custom_fields = false)
    (ha4 : a.status_labels = false) (ha5 : a.companies = false)
    (ha6 : a.locations = false) (ha7 : a.departments = false)
    (ha8 : a.suppliers = false) (ha9 : a.manufacturers = false)
    (ha10 : a.api_endpoints = false) (hexp : a.doExport = true)
    (hb0 : b.server = a.server) (_hb1 : b.token = a.token)
    (hb2 : b.all = true) (hb3 : b.categories = false)
    (hb4 : b.models = false) (hb5 : b.custom_fields = false)
    (hb6 : b.status_labels = false) (hb7 : b.companies = false)
    (hb8 : b.locations = false) (hb9 : b.departments = false)
    (hb10 : b.suppliers = false) (hb11 : b.manufacturers = false)
    (hb12 : b.api_endpoints = false) (hb13 : b.doExport = false) :
    (main_run a true env).exitCode = 0 ∧
    (main_run a true env).events =
      (main_run b true env).events ++ exportEvents a.export_file := by
  constructor <;>
    simp [main_run, listingEvents, show_all, hurl, ha0, ha1, ha2, ha3, ha4,
      ha5, ha6, ha7, ha8, ha9, ha10, hexp, hb0, hb2, hb3, hb4, hb5,
      hb6, hb7, hb8, hb9, hb10, hb11, hb12, hb13]

/-- Claim C10 witness: a concrete run with only server, token and export
set equals the concrete all-flag run followed by the export trace. -/
theorem c10_export_not_selection_witness :
    (main_run
      ⟨"https://h", "t", false, false, false, false, false, false, false,
        false, false, false, false, true, "out.json"⟩
      true (fun _ => HttpOutcome.networkError "refused")).events =
    (main_run
      ⟨"https://h", "t", true, false, false, false, false, false, false,
        false, false, false, false, false, "out.json"⟩
      true (fun _ => HttpOutcome.networkError "refused")).events ++
      exportEvents "out.json" :=
  (c10_export_not_selection
    ⟨"https://h", "t", false, false, false, false, false, false, false,
      false, false, false, false, true, "out.json"⟩
    ⟨"https://h", "t", true, false, false, false, false, false, false,
      false, false, false, false, false, "out.json"⟩
    (fun _ => HttpOutcome.networkError "refused")
    rfl rfl rfl rfl rfl rfl rfl rfl rfl rfl
    rfl rfl rfl rfl rfl rfl rfl rfl rfl rfl rfl rfl rfl rfl rfl rfl rfl).2

end SnipeIT
